import Mathlib

/-!
Verification of the session and flow controller of the video-call page
(`src/pages/Index.tsx`).  The definitions below are a shallow embedding of
that file's state and handlers:

* the duration-limit resolution performed in the mount effect
  (URL `seconds` parameter, then remote `call_config` fetch, then the
  built-in 30-minute default);
* the call-session controller (`startCall`, `endCall`, `stopMediaTracks`,
  the per-second interval tick, `toggleMic`, `toggleCam`);
* the guided chat flow's "Voltar" (back) and "Gerar" (generate) button
  handlers together with the package catalog.

React `useState` setters are modelled as record updates applied in program
order; `useRef` cells (`selfStreamRef`, `timerRef`) are ordinary fields.
-/

namespace VideoCall

/-! ### Duration-limit resolution (Index.tsx lines 89-124) -/

/-- JavaScript whitespace accepted by `parseInt` before the number. -/
def isJsSpace (c : Char) : Bool :=
  c == ' ' || c == '\t' || c == '\n' || c == '\r' || c == '\x0b' || c == '\x0c'

/-- Accumulate a decimal digit string into a natural number. -/
def digitsToNat (l : List Char) : Nat :=
  l.foldl (fun acc c => acc * 10 + (c.toNat - 48)) 0

/-- Model of JavaScript `parseInt(str, 10)`: skip leading whitespace, read an
optional sign, then the longest run of decimal digits; `none` models `NaN`
(no digit found).  Trailing garbage after the digits is ignored, as in JS. -/
def parseIntJS (s : String) : Option Int :=
  let cs := s.data.dropWhile isJsSpace
  let signAndRest : Int × List Char :=
    match cs with
    | '-' :: rest => (-1, rest)
    | '+' :: rest => (1, rest)
    | rest => (1, rest)
  let digs := signAndRest.2.takeWhile Char.isDigit
  if digs.isEmpty then none
  else some (signAndRest.1 * (digitsToNat digs : Int))

/-- The URL-parameter part of the mount effect (lines 90-100).  Input is
`params.get("seconds")` (`none` when the parameter is absent).  Returns the
pair `(durationLimitSeconds, hasDurationParam)` produced by that block.
The empty string is falsy in JS, so `some ""` takes the `else` branch; a
present but unparsable or non-positive value calls neither setter, leaving
both states at their initial values `(none, false)`. -/
def resolveFromUrl (p : Option String) : Option Int × Bool :=
  match p with
  | none => (none, false)
  | some str =>
    if str = "" then (none, false)
    else
      match parseIntJS str with
      | some v => if 0 < v then (some v, true) else (none, false)
      | none => (none, false)

/-- The `setDurationLimitSeconds` updater run when `loadConfig` completes with
a row (line 114): `prev !== null ? prev : data.duration_seconds ?? null`.
When the fetch returns no row the setter is not called at all, which gives
the same result as applying this with `cfgDuration = none`. -/
def applyConfig (prev cfgDuration : Option Int) : Option Int :=
  match prev with
  | some v => some v
  | none => cfgDuration

/-- Constant from line 22 of the source. -/
def CALL_DURATION_LIMIT_MINUTES : Int := 30

/-- Line 124: `durationLimitSeconds ?? CALL_DURATION_LIMIT_MINUTES * 60`. -/
def effectiveLimitSeconds (d : Option Int) : Int :=
  d.getD (CALL_DURATION_LIMIT_MINUTES * 60)

/-- The auto-start effect (lines 200-207) calls `startCall()` exactly when
`params.get("seconds")` is truthy, i.e. present and non-empty — it performs
no validity check on the value. -/
def autoStartFires (p : Option String) : Bool :=
  match p with
  | some str => str != ""
  | none => false

/-! ### Call-session state (Index.tsx lines 31-62) -/

/-- Kind of a captured device track (`MediaStreamTrack.kind`). -/
inductive TrackKind
  | audio
  | video
deriving DecidableEq, Repr

/-- A locally captured device track: its kind and its `enabled` flag. -/
structure Track where
  kind : TrackKind
  enabled : Bool
deriving DecidableEq, Repr

/-- The `MediaState` interface (lines 10-13). -/
structure MediaState where
  micOn : Bool
  camOn : Bool
deriving DecidableEq, Repr

/-- The call-session state: the `useState` slots `inCall`, `connecting`,
`duration`, `mediaState`, `permissionError`, plus the refs `selfStreamRef`
(the captured tracks, `none` when no local media handle exists) and
`timerRef` (the interval id, `none` when no timer is running). -/
structure CallState where
  inCall : Bool
  connecting : Bool
  duration : Int
  mediaState : MediaState
  permissionError : Option String
  selfStream : Option (List Track)
  timer : Option Nat
deriving DecidableEq, Repr

/-- `stopMediaTracks` (lines 236-241): if a stream is held, stop its tracks
and clear the reference; otherwise do nothing. -/
def stopMediaTracks (s : CallState) : CallState :=
  if s.selfStream.isSome then { s with selfStream := none } else s

/-- The timer-cancellation step of `endCall` and of the effect cleanups
(lines 247-250): `if (timerRef.current) { clearInterval; timerRef.current = null }`. -/
def clearTimer (s : CallState) : CallState :=
  if s.timer.isSome then { s with timer := none } else s

/-- `endCall` (lines 243-251): set `inCall := false`, reset `duration := 0`,
stop and release the captured tracks, cancel the timer.  The optional
`reason` argument of the source has no effect on state and is omitted. -/
def endCall (s : CallState) : CallState :=
  clearTimer (stopMediaTracks { s with inCall := false, duration := 0 })

/-- One firing of the interval callback (lines 126-135), with the
`effectiveLimitSeconds` value captured by the effect closure.  The
`setDuration` updater is modelled in program order: when `prev + 1`
reaches the limit, `endCall()` runs and then the updater's return value
`prev + 1` is the duration assigned by this tick (the final increment is
not suppressed).  The handler performs no check of the current call state. -/
def tick (limit : Int) (s : CallState) : CallState :=
  if s.duration + 1 ≥ limit then
    { endCall s with duration := s.duration + 1 }
  else
    { s with duration := s.duration + 1 }

/-- `n` consecutive firings of the interval callback. -/
def runTicks (limit : Int) : Nat → CallState → CallState
  | 0, s => s
  | n + 1, s => tick limit (runTicks limit n s)

/-- The timer effect body (lines 121-135): it returns immediately when not
in a call, and otherwise stores a fresh interval id in `timerRef`. -/
def timerEffect (intervalId : Nat) (s : CallState) : CallState :=
  if s.inCall then { s with timer := some intervalId } else s

/-- The fixed user-facing message set on device/permission failure
(lines 164-165 of the source). -/
def permissionErrorMessage : String :=
  "Não foi possível acessar sua câmera ou microfone. Verifique as permissões do navegador."

/-- `requestMedia` (lines 146-174).  The device-capture outcome is an input:
`some tracks` models a successful `getUserMedia`, `none` a rejection.  The
function first clears `permissionError`; on success it stores the stream and
returns `true`; on failure it sets the fixed message and returns `false`. -/
def requestMedia (outcome : Option (List Track)) (s : CallState) : Bool × CallState :=
  let s1 := { s with permissionError := none }
  match outcome with
  | some tracks => (true, { s1 with selfStream := some tracks })
  | none => (false, { s1 with permissionError := some permissionErrorMessage })

/-- `startCall` (lines 176-187): set `connecting`, request media; on failure
clear `connecting` and return; on success reset `duration`, enter the call,
clear `connecting`. -/
def startCall (outcome : Option (List Track)) (s : CallState) : CallState :=
  let s1 := { s with connecting := true }
  let r := requestMedia outcome s1
  if r.1 then { r.2 with duration := 0, inCall := true, connecting := false }
  else { r.2 with connecting := false }

/-- `toggleMic` (lines 262-268): flip `micOn` unconditionally; if a stream is
held, set every audio track's `enabled` to the new flag. -/
def toggleMic (s : CallState) : CallState :=
  let next := !s.mediaState.micOn
  let s1 := { s with mediaState := { s.mediaState with micOn := next } }
  match s.selfStream with
  | some tracks =>
      { s1 with selfStream := some (tracks.map (fun t =>
          if t.kind = TrackKind.audio then { t with enabled := next } else t)) }
  | none => s1

/-- `toggleCam` (lines 270-276): flip `camOn` unconditionally; if a stream is
held, set every video track's `enabled` to the new flag. -/
def toggleCam (s : CallState) : CallState :=
  let next := !s.mediaState.camOn
  let s1 := { s with mediaState := { s.mediaState with camOn := next } }
  match s.selfStream with
  | some tracks =>
      { s1 with selfStream := some (tracks.map (fun t =>
          if t.kind = TrackKind.video then { t with enabled := next } else t)) }
  | none => s1

/-! ### Guided chat flow (Index.tsx lines 15-57, 513-577) -/

/-- The `ChatStep` union type (lines 41-50). -/
inductive ChatStep
  | intro
  | minutes
  | minutes_confirmed
  | contact_typing
  | contact
  | contact_confirmed
  | summary_typing
  | summary
  | finished
deriving DecidableEq, Repr

/-- The `PackageOption` interface (lines 15-20). -/
structure PackageOption where
  id : String
  label : String
  minutes : Nat
  price : ℚ
deriving DecidableEq, Repr

/-- The three catalog entries of `PACKAGES` (lines 24-28). -/
def packageP10 : PackageOption := ⟨"p10", "10 minutos", 10, 49.9⟩

/-- Second catalog entry. -/
def packageP20 : PackageOption := ⟨"p20", "20 minutos", 20, 79.9⟩

/-- Third catalog entry. -/
def packageP30 : PackageOption := ⟨"p30", "30 minutos", 30, 99.9⟩

/-- The fixed package catalog `PACKAGES` (lines 24-28). -/
def PACKAGES : List PackageOption := [packageP10, packageP20, packageP30]

/-- The contact-channel union (line 54). -/
inductive ContactChannel
  | whatsapp
  | telegram
  | email
deriving DecidableEq, Repr

/-- The chat-flow state: `chatStep`, `selectedPackage`, `contactChannel`,
`contactValue`, `isTyping` (lines 52-56). -/
structure ChatState where
  chatStep : ChatStep
  selectedPackage : Option PackageOption
  contactChannel : Option ContactChannel
  contactValue : String
  isTyping : Bool
deriving DecidableEq, Repr

/-- A `window.open(url, target)` request emitted by a handler. -/
structure OpenedWindow where
  url : String
  target : String
deriving DecidableEq, Repr

/-- The "Voltar" (back) button handler (lines 513-531).  The button is only
rendered while the step is `contact`, `summary` or `summary_typing`
(`none` models the button being absent).  From `summary`/`summary_typing`
it only moves the step back to `contact`; from `contact` it moves to
`minutes` and clears the package, the channel and the contact value. -/
def backAction (s : ChatState) : Option ChatState :=
  match s.chatStep with
  | ChatStep.summary => some { s with chatStep := ChatStep.contact }
  | ChatStep.summary_typing => some { s with chatStep := ChatStep.contact }
  | ChatStep.contact =>
      some { s with chatStep := ChatStep.minutes, selectedPackage := none,
                    contactChannel := none, contactValue := "" }
  | _ => none

/-- The "Gerar chamada de teste" (generate) button handler (lines 543-562).
The button is only rendered when the step is `summary` and a package is
selected (`none` models the button being absent).  It computes
`seconds = minutes * 60`, opens `origin ++ "/?seconds=" ++ seconds` in a
new navigation context (`_blank`) and moves the step to `finished`. -/
def generateAction (origin : String) (s : ChatState) :
    Option (OpenedWindow × ChatState) :=
  match s.chatStep, s.selectedPackage with
  | ChatStep.summary, some pkg =>
      let seconds := pkg.minutes * 60
      some (⟨origin ++ ("/?seconds=" ++ toString seconds), "_blank"⟩,
            { s with chatStep := ChatStep.finished })
  | _, _ => none

/-! ### Concrete states used by witnesses and counterexamples -/

/-- A concrete active call session used as a witness input. -/
def activeState : CallState :=
  ⟨true, false, 0, ⟨true, true⟩, none,
   some [⟨TrackKind.audio, true⟩, ⟨TrackKind.video, true⟩], some 7⟩

/-- A concrete post-`endCall` session state. -/
def endedState : CallState :=
  ⟨false, false, 0, ⟨true, true⟩, none, none, none⟩

/-- A concrete idle state with no captured stream. -/
def idleNoStreamState : CallState :=
  ⟨false, false, 0, ⟨true, true⟩, none, none, none⟩

/-- An in-call state whose single audio track is disabled while the
mic-enabled flag is on (the track is out of sync with the flag). -/
def outOfSyncState : CallState :=
  ⟨true, false, 0, ⟨true, true⟩, none, some [⟨TrackKind.audio, false⟩], none⟩

/-- An in-call state whose audio tracks agree with the mic-enabled flag. -/
def syncedState : CallState :=
  ⟨true, false, 0, ⟨true, true⟩, none,
   some [⟨TrackKind.audio, true⟩, ⟨TrackKind.video, false⟩], some 3⟩

/-- Chat state of the scenario of claim C9: 10-minute package selected,
channel email, contact value `"a@b.com"`, step `summary`. -/
def chatSummaryEmailState : ChatState :=
  ⟨ChatStep.summary, some packageP10, some ContactChannel.email, "a@b.com", false⟩

/-! ### Shared projection lemmas -/

@[simp]
lemma stopMediaTracks_inCall (s : CallState) :
    (stopMediaTracks s).inCall = s.inCall := by
  unfold stopMediaTracks; split <;> rfl

@[simp]
lemma stopMediaTracks_duration (s : CallState) :
    (stopMediaTracks s).duration = s.duration := by
  unfold stopMediaTracks; split <;> rfl

@[simp]
lemma stopMediaTracks_timer (s : CallState) :
    (stopMediaTracks s).timer = s.timer := by
  unfold stopMediaTracks; split <;> rfl

@[simp]
lemma stopMediaTracks_selfStream (s : CallState) :
    (stopMediaTracks s).selfStream = none := by
  cases hs : s.selfStream <;> simp [stopMediaTracks, hs]

@[simp]
lemma clearTimer_inCall (s : CallState) :
    (clearTimer s).inCall = s.inCall := by
  unfold clearTimer; split <;> rfl

@[simp]
lemma clearTimer_duration (s : CallState) :
    (clearTimer s).duration = s.duration := by
  unfold clearTimer; split <;> rfl

@[simp]
lemma clearTimer_selfStream (s : CallState) :
    (clearTimer s).selfStream = s.selfStream := by
  unfold clearTimer; split <;> rfl

@[simp]
lemma clearTimer_timer (s : CallState) :
    (clearTimer s).timer = none := by
  cases hs : s.timer <;> simp [clearTimer, hs]

@[simp]
lemma endCall_inCall (s : CallState) : (endCall s).inCall = false := by
  simp [endCall]

@[simp]
lemma endCall_duration (s : CallState) : (endCall s).duration = 0 := by
  simp [endCall]

@[simp]
lemma endCall_selfStream (s : CallState) : (endCall s).selfStream = none := by
  simp [endCall]

@[simp]
lemma endCall_timer (s : CallState) : (endCall s).timer = none := by
  simp [endCall]

/-! ### C1: duration-limit resolution -/

/-- C1: the resolved duration-limit-seconds is the entry link's `seconds`
value whenever that value parses as a positive integer (and then the
remote-config duration is ignored); otherwise it is the remote-config
duration, which fills the limit only while it is still unset and is never
overridden by a later fetch; and when neither source supplies a value the
effective limit is the fixed default of 1800 seconds (30 minutes). -/
theorem duration_limit_resolution (p : Option String) (cfg cfg2 : Option Int) :
    (∀ v : Int, (resolveFromUrl p).1 = some v →
        0 < v ∧ applyConfig (resolveFromUrl p).1 cfg = some v ∧
        effectiveLimitSeconds (applyConfig (resolveFromUrl p).1 cfg) = v) ∧
    ((resolveFromUrl p).1 = none →
        applyConfig (resolveFromUrl p).1 cfg = cfg) ∧
    ((resolveFromUrl p).1 = none → ∀ c : Int, cfg = some c →
        effectiveLimitSeconds (applyConfig (resolveFromUrl p).1 cfg) = c) ∧
    ((resolveFromUrl p).1 = none → cfg = none →
        effectiveLimitSeconds (applyConfig (resolveFromUrl p).1 cfg) = 1800) ∧
    (∀ r : Int, applyConfig (resolveFromUrl p).1 cfg = some r →
        applyConfig (applyConfig (resolveFromUrl p).1 cfg) cfg2 = some r) := by
  have hpos : ∀ v : Int, (resolveFromUrl p).1 = some v → 0 < v := by
    intro v hv
    rcases p with _ | str
    · simp [resolveFromUrl] at hv
    · by_cases h0 : str = ""
      · simp [resolveFromUrl, h0] at hv
      · simp only [resolveFromUrl, if_neg h0] at hv
        rcases hpi : parseIntJS str with _ | w
        · rw [hpi] at hv; simp at hv
        · rw [hpi] at hv
          by_cases hw : 0 < w
          · simp only [if_pos hw] at hv
            simp only [Option.some.injEq] at hv
            omega
          · simp [if_neg hw] at hv
  refine ⟨?_, ?_, ?_, ?_, ?_⟩
  · intro v hv
    refine ⟨hpos v hv, ?_, ?_⟩
    · rw [hv]; rfl
    · rw [hv]; rfl
  · intro h; rw [h]; rfl
  · intro h c hc; rw [h, hc]; rfl
  · intro h hc; rw [h, hc]; decide
  · intro r hr; rw [hr]; rfl

/-- Witness for C1 at concrete inputs: a valid link value `"600"` wins over a
config duration of `900`; an absent link value lets the config duration
`900` through; with neither source the default `1800` applies; and a second
fetch value `100` does not override an already-resolved `900`. -/
theorem duration_limit_resolution_witness :
    effectiveLimitSeconds (applyConfig (resolveFromUrl (some "600")).1 (some 900)) = 600 ∧
    effectiveLimitSeconds (applyConfig (resolveFromUrl none).1 (some 900)) = 900 ∧
    effectiveLimitSeconds (applyConfig (resolveFromUrl none).1 none) = 1800 ∧
    applyConfig (applyConfig (resolveFromUrl none).1 (some 900)) (some 100) = some 900 := by
  refine ⟨?_, ?_, ?_, ?_⟩
  · exact ((duration_limit_resolution (some "600") (some 900) (some 100)).1 600 (by decide)).2.2
  · exact (duration_limit_resolution none (some 900) (some 100)).2.2.1 rfl 900 rfl
  · exact (duration_limit_resolution none none none).2.2.2.1 rfl rfl
  · exact (duration_limit_resolution none (some 900) (some 100)).2.2.2.2 900 rfl

/-! ### C2: malformed `seconds` parameter -/

/-- C2 (code bug): for a present but malformed or non-positive `seconds`
parameter (`"abc"`, `"0"`), the resolver leaves `durationLimitSeconds`
unset and `hasDurationParam` false — yet the auto-start effect still fires,
because it only tests that the raw parameter string is non-empty, unlike
the parameter-absent case where it does not fire. -/
theorem malformed_param_still_autostarts :
    (resolveFromUrl (some "abc")).1 = none ∧
    (resolveFromUrl (some "abc")).2 = false ∧
    autoStartFires (some "abc") = true ∧
    (resolveFromUrl (some "0")).1 = none ∧
    (resolveFromUrl (some "0")).2 = false ∧
    autoStartFires (some "0") = true ∧
    autoStartFires none = false := by
  decide

/-! ### C3: the timer ends the session after exactly `limit` ticks -/

/-- Tick invariant: starting from an in-call state with `duration = 0`, after
`k ≤ n` ticks against limit `n` the duration is `k` and the session is
still in the call exactly while `k < n`. -/
lemma runTicks_invariant (n : Nat) (s0 : CallState) (hn : 0 < n)
    (hin : s0.inCall = true) (hdur : s0.duration = 0) :
    ∀ k : Nat, k ≤ n →
      (runTicks (n : Int) k s0).duration = (k : Int) ∧
      (runTicks (n : Int) k s0).inCall = decide (k < n) := by
  intro k
  induction k with
  | zero =>
    intro _
    constructor
    · simpa [runTicks] using hdur
    · simp [runTicks, hin, hn]
  | succ k ih =>
    intro hk1
    obtain ⟨hd, hi⟩ := ih (Nat.le_of_succ_le hk1)
    have hklt : k < n := Nat.lt_of_succ_le hk1
    have hiT : (runTicks (n : Int) k s0).inCall = true := by
      simp [hi, hklt]
    rw [runTicks]
    unfold tick
    by_cases hcase : (runTicks (n : Int) k s0).duration + 1 ≥ (n : Int)
    · rw [if_pos hcase]
      rw [hd] at hcase
      have hge : n ≤ k + 1 := by exact_mod_cast hcase
      have heq : k + 1 = n := Nat.le_antisymm hk1 hge
      constructor
      · show (runTicks (n : Int) k s0).duration + 1 = ((k + 1 : Nat) : Int)
        rw [hd]; push_cast; ring
      · show (endCall (runTicks (n : Int) k s0)).inCall = decide (k + 1 < n)
        simp [heq]
    · rw [if_neg hcase]
      rw [hd] at hcase
      have hlt : k + 1 < n := by
        have : (k : Int) + 1 < (n : Int) := by omega
        exact_mod_cast this
      constructor
      · show (runTicks (n : Int) k s0).duration + 1 = ((k + 1 : Nat) : Int)
        rw [hd]; push_cast; ring
      · show (runTicks (n : Int) k s0).inCall = decide (k + 1 < n)
        simp [hiT, hlt]

/-- C3: for every positive integer limit `n`, a started session with
resolved limit `n` is still in the call with `duration = k` after any
`k < n` ticks, and after exactly `n` ticks it has ended — exactly once,
since it was active at every earlier tick — with the final increment of
the elapsed counter not suppressed (`duration = n`) and the timer
cancelled by the `endCall` of that last tick. -/
theorem session_ends_after_limit_ticks (n : Nat) (s0 : CallState) (hn : 0 < n)
    (hin : s0.inCall = true) (hdur : s0.duration = 0) :
    (∀ k : Nat, k < n →
        (runTicks (n : Int) k s0).inCall = true ∧
        (runTicks (n : Int) k s0).duration = (k : Int)) ∧
    (runTicks (n : Int) n s0).inCall = false ∧
    (runTicks (n : Int) n s0).duration = (n : Int) ∧
    (runTicks (n : Int) n s0).timer = none := by
  have hinv := runTicks_invariant n s0 hn hin hdur
  refine ⟨?_, ?_, ?_, ?_⟩
  · intro k hk
    obtain ⟨hd, hi⟩ := hinv k (Nat.le_of_lt hk)
    exact ⟨by simp [hi, hk], hd⟩
  · obtain ⟨_, hi⟩ := hinv n le_rfl
    simp [hi]
  · exact (hinv n le_rfl).1
  · obtain ⟨m, rfl⟩ : ∃ m, n = m + 1 := ⟨n - 1, by omega⟩
    obtain ⟨hd, _⟩ := hinv m (Nat.le_succ m)
    rw [runTicks]
    unfold tick
    rw [if_pos (by rw [hd]; push_cast; omega)]
    simp

/-- Witness for C3 with limit `2` on a concrete active session: still in the
call after one tick, ended with duration `2` after two ticks. -/
theorem session_ends_after_limit_ticks_witness :
    ((runTicks 2 1 activeState).inCall = true ∧
        (runTicks 2 1 activeState).duration = 1) ∧
    (runTicks 2 2 activeState).inCall = false ∧
    (runTicks 2 2 activeState).duration = 2 ∧
    (runTicks 2 2 activeState).timer = none := by
  have h := session_ends_after_limit_ticks 2 activeState (by decide) rfl rfl
  exact ⟨h.1 1 (by decide), h.2.1, h.2.2.1, h.2.2.2⟩

/-! ### C4: in-flight tick after `end()` -/

/-- C4 counterexample: the claim says an in-flight tick that fires after the
session has ended is a no-op decided by a state check inside the tick
handler and never increments elapsed-seconds.  The handler performs no such
check: applied to the concrete ended state it increments the elapsed
counter from 0 to 1. -/
theorem tick_after_end_increments :
    endedState.inCall = false ∧ endedState.duration = 0 ∧
    (tick 5 endedState).duration = 1 := by
  decide

/-- C4 amended: after `end()`, suppression of further ticks relies solely on
the timer cancellation (`clearInterval` in `endCall` and in the effect
cleanup); the tick handler itself checks no call state, so a tick that does
fire on an ended state (in-call false, duration 0, stream and timer
cleared) increments elapsed-seconds from 0 to 1 — though it does not
resurrect the session (in-call stays false) and does not release tracks
again (the media handle is already cleared, and releasing with no handle is
a no-op). -/
theorem tick_after_end_behaviour (limit : Int) (cn : Bool) (ms : MediaState)
    (pe : Option String) :
    tick limit ⟨false, cn, 0, ms, pe, none, none⟩ =
      ⟨false, cn, 1, ms, pe, none, none⟩ ∧
    (tick limit ⟨false, cn, 0, ms, pe, none, none⟩).inCall = false ∧
    (tick limit ⟨false, cn, 0, ms, pe, none, none⟩).selfStream = none := by
  have h : tick limit ⟨false, cn, 0, ms, pe, none, none⟩ =
      ⟨false, cn, 1, ms, pe, none, none⟩ := by
    unfold tick
    split <;> simp [endCall, stopMediaTracks, clearTimer]
  exact ⟨h, by rw [h], by rw [h]⟩

/-! ### C5: `end()` twice in succession -/

/-- C5: from any state, calling `endCall` twice leaves the session ended
with elapsed-seconds 0, no captured track references and no timer, and the
second call changes nothing; track release and timer cancellation are each
idempotent on their own. -/
theorem end_twice_idempotent (s : CallState) :
    endCall (endCall s) = endCall s ∧
    (endCall s).inCall = false ∧
    (endCall s).duration = 0 ∧
    (endCall s).selfStream = none ∧
    (endCall s).timer = none ∧
    stopMediaTracks (stopMediaTracks s) = stopMediaTracks s ∧
    clearTimer (clearTimer s) = clearTimer s := by
  obtain ⟨ic, cn, du, ms, pe, st, ti⟩ := s
  rcases st with _ | st <;> rcases ti with _ | ti <;>
    simp [endCall, stopMediaTracks, clearTimer]

/-! ### C6: device-capture failure is non-fatal and retryable -/

/-- C6: when the device-capture request fails, `startCall` on an idle state
(in-call false, no timer) leaves the session idle with connecting cleared
and the fixed permission-error message set; the timer effect does not start
a timer on that state; and a later `startCall` whose capture succeeds still
enters the call with a fresh duration and a cleared error. -/
theorem start_failure_retryable (cn0 : Bool) (du0 : Int) (ms : MediaState)
    (pe0 : Option String) (st0 : Option (List Track)) (tracks : List Track) :
    startCall none ⟨false, cn0, du0, ms, pe0, st0, none⟩ =
      ⟨false, false, du0, ms, some permissionErrorMessage, st0, none⟩ ∧
    (∀ intervalId : Nat,
      timerEffect intervalId (startCall none ⟨false, cn0, du0, ms, pe0, st0, none⟩) =
        startCall none ⟨false, cn0, du0, ms, pe0, st0, none⟩) ∧
    startCall (some tracks) (startCall none ⟨false, cn0, du0, ms, pe0, st0, none⟩) =
      ⟨true, false, 0, ms, none, some tracks, none⟩ := by
  refine ⟨rfl, ?_, rfl⟩
  intro intervalId
  rfl

/-! ### C7: toggling the mic twice -/

/-- C7 counterexample: on a state whose audio track is disabled while the
mic flag is on, two `toggleMic` calls restore the flag but flip the track's
enabled state from `false` to `true`, so the double toggle is not the
identity claimed for every session state. -/
theorem toggleMic_twice_changes_tracks :
    (toggleMic (toggleMic outOfSyncState)).mediaState.micOn =
      outOfSyncState.mediaState.micOn ∧
    outOfSyncState.selfStream = some [⟨TrackKind.audio, false⟩] ∧
    (toggleMic (toggleMic outOfSyncState)).selfStream =
      some [⟨TrackKind.audio, true⟩] ∧
    toggleMic (toggleMic outOfSyncState) ≠ outOfSyncState := by
  decide

/-- Mapping the audio tracks to `!b` and then to `!(!b)` is the identity on
a track list whose audio tracks all have `enabled = b`. -/
lemma map_toggle_toggle (b : Bool) (l : List Track)
    (h : ∀ t ∈ l, t.kind = TrackKind.audio → t.enabled = b) :
    (l.map (fun t =>
        if t.kind = TrackKind.audio then { t with enabled := !b } else t)).map
      (fun t =>
        if t.kind = TrackKind.audio then { t with enabled := !(!b) } else t) = l := by
  induction l with
  | nil => rfl
  | cons t ts ih =>
    rw [List.map_cons, List.map_cons]
    have hts : ∀ u ∈ ts, u.kind = TrackKind.audio → u.enabled = b := by
      intro u hu; exact h u (List.mem_cons_of_mem t hu)
    rw [ih hts]
    obtain ⟨k, e⟩ := t
    by_cases hk : k = TrackKind.audio
    · have he : e = b := h ⟨k, e⟩ (List.mem_cons_self _ _) hk
      subst hk
      subst he
      simp [Bool.not_not]
    · simp [hk]

/-- C7 amended: two `toggleMic` calls always restore the mic-enabled flag;
they restore the full session state — in particular the enabled state of
every captured audio track — provided every captured audio track's enabled
state initially agrees with the flag (tracks that start out of sync are
snapped to the toggled flag, not restored). -/
theorem toggleMic_twice_restores (s : CallState) :
    (toggleMic (toggleMic s)).mediaState.micOn = s.mediaState.micOn ∧
    ((∀ t ∈ s.selfStream.getD [], t.kind = TrackKind.audio →
        t.enabled = s.mediaState.micOn) →
      toggleMic (toggleMic s) = s) := by
  obtain ⟨ic, cn, du, ⟨mi, ca⟩, pe, st, ti⟩ := s
  constructor
  · rcases st with _ | tracks <;> simp [toggleMic]
  · intro h
    rcases st with _ | tracks
    · simp [toggleMic]
    · simp only [Option.getD_some] at h
      simp only [toggleMic, List.map_map]
      rw [← List.map_map]
      rw [map_toggle_toggle mi tracks h]
      simp

/-- Witness for C7 on a concrete in-sync state: the double toggle restores
the whole session state. -/
theorem toggleMic_twice_restores_witness :
    toggleMic (toggleMic syncedState) = syncedState :=
  (toggleMic_twice_restores syncedState).2 (by decide)

/-! ### C8: toggles without a local media handle -/

/-- C8 counterexample: with no local media handle, `toggleMic` is claimed to
leave the session state unchanged, but it still flips the mic-enabled
flag. -/
theorem toggle_without_stream_changes_state :
    idleNoStreamState.selfStream = none ∧
    toggleMic idleNoStreamState ≠ idleNoStreamState ∧
    (toggleMic idleNoStreamState).mediaState.micOn = false := by
  decide

/-- C8 amended: when no local media handle exists, `toggleMic` and
`toggleCam` still flip the corresponding enabled flag; only the
track-application step is skipped (no tracks are touched and no error is
raised), so the rest of the state is unchanged. -/
theorem toggle_without_stream_flips_flag (ic cn : Bool) (du : Int)
    (mi ca : Bool) (pe : Option String) (ti : Option Nat) :
    toggleMic ⟨ic, cn, du, ⟨mi, ca⟩, pe, none, ti⟩ =
      ⟨ic, cn, du, ⟨!mi, ca⟩, pe, none, ti⟩ ∧
    toggleCam ⟨ic, cn, du, ⟨mi, ca⟩, pe, none, ti⟩ =
      ⟨ic, cn, du, ⟨mi, !ca⟩, pe, none, ti⟩ :=
  ⟨rfl, rfl⟩

/-! ### C9: the generate action -/

/-- C9: from the `summary` step with a package selected, the generate action
opens `origin ++ "/?seconds=" ++ (minutes * 60)` as a new navigation
context (`_blank`) and moves the chat step to `finished`; in the concrete
scenario — the 10-minute catalog package, channel email, contact value
`"a@b.com"` — the hand-off link is exactly `origin ++ "/?seconds=600"`. -/
theorem generate_opens_handoff_link (origin : String) (pkg : PackageOption)
    (ch : Option ContactChannel) (v : String) (ty : Bool) :
    generateAction origin ⟨ChatStep.summary, some pkg, ch, v, ty⟩ =
      some (⟨origin ++ ("/?seconds=" ++ toString (pkg.minutes * 60)), "_blank"⟩,
            ⟨ChatStep.finished, some pkg, ch, v, ty⟩) ∧
    packageP10 ∈ PACKAGES ∧
    packageP10.minutes = 10 ∧
    generateAction origin chatSummaryEmailState =
      some (⟨origin ++ "/?seconds=600", "_blank"⟩,
            { chatSummaryEmailState with chatStep := ChatStep.finished }) :=
  ⟨rfl, List.mem_cons_self packageP10 [packageP20, packageP30], rfl, rfl⟩

/-! ### C10: the back action -/

/-- C10: pressing Back while the step is `contact` returns to `minutes` and
resets the selected package to null, the contact channel to null and the
contact value to the empty string, while Back from `summary` or
`summary_typing` only changes the step to `contact` and leaves package,
channel and value (and the typing flag) unchanged. -/
theorem back_resets_only_from_contact (pk : Option PackageOption)
    (ch : Option ContactChannel) (v : String) (ty : Bool) :
    backAction ⟨ChatStep.contact, pk, ch, v, ty⟩ =
      some ⟨ChatStep.minutes, none, none, "", ty⟩ ∧
    backAction ⟨ChatStep.summary, pk, ch, v, ty⟩ =
      some ⟨ChatStep.contact, pk, ch, v, ty⟩ ∧
    backAction ⟨ChatStep.summary_typing, pk, ch, v, ty⟩ =
      some ⟨ChatStep.contact, pk, ch, v, ty⟩ :=
  ⟨rfl, rfl, rfl⟩

end VideoCall
